import Mathlib

/-!
Shallow embedding of the Umzila e-commerce Netlify functions.

The embedding covers the PayFast signing paths of
netlify/functions/initiate-payfast.js (buildStringToSign) and
netlify/functions/payfast-itn.js (encodePfValue, generatePfSignature),
the ITN order-update logic, the get-client-config handler, the
initiate-payfast validation loop, and the validate-cart item loop.

JavaScript strings are modelled as Lean String values; the byte-level
percent encodings operate on the UTF-8 bytes of the string, matching what
Node's encodeURIComponent and URLSearchParams produce.  JavaScript numbers
are modelled as exact rationals (the claims settled here do not depend on
IEEE-754 rounding).  Absent object fields (undefined/null) are modelled as
Option.none.
-/

namespace Umzila

/-- UTF-8 bytes of a character, computed from its code point. -/
def utf8Bytes (c : Char) : List Nat :=
  let n := c.toNat
  if n < 128 then [n]
  else if n < 2048 then [192 + n / 64, 128 + n % 64]
  else if n < 65536 then [224 + n / 4096, 128 + (n / 64) % 64, 128 + n % 64]
  else [240 + n / 262144, 128 + (n / 4096) % 64, 128 + (n / 64) % 64, 128 + n % 64]

/-- UTF-8 byte sequence of a string. -/
def strBytes (s : String) : List Nat :=
  (s.toList.map utf8Bytes).flatten

/-- Upper-case hexadecimal digit for a value below 16. -/
def hexDigitUpper (n : Nat) : Char :=
  if n < 10 then Char.ofNat (48 + n) else Char.ofNat (55 + n)

/-- Percent-encoding of one byte, as the three characters %XY with upper-case
hex digits (the case produced by encodeURIComponent and URLSearchParams). -/
def pctByte (b : Nat) : String :=
  String.mk [Char.ofNat 37, hexDigitUpper (b / 16), hexDigitUpper (b % 16)]

/-- ASCII digits and letters. -/
def isAsciiAlphaNumByte (b : Nat) : Bool :=
  (48 ≤ b && b ≤ 57) || (65 ≤ b && b ≤ 90) || (97 ≤ b && b ≤ 122)

/-- Bytes left verbatim by JavaScript encodeURIComponent:
alphanumerics and - _ . ! ~ * and the quote and parenthesis characters
(codes 45 95 46 33 126 42 39 40 41). -/
def uriComponentUnescaped (b : Nat) : Bool :=
  isAsciiAlphaNumByte b || b == 45 || b == 95 || b == 46 || b == 33 ||
    b == 126 || b == 42 || b == 39 || b == 40 || b == 41

/-- JavaScript encodeURIComponent: every UTF-8 byte outside the unescaped set
becomes %XY (upper-case hex). -/
def encodeURIComponentJs (s : String) : String :=
  String.join ((strBytes s).map
    (fun b => if uriComponentUnescaped b then String.mk [Char.ofNat b] else pctByte b))

/-- One left-to-right non-overlapping pass replacing the three-character
sequence %20 (codes 37 50 48) by + (code 43): the semantics of
JavaScript .replace(slash-percent-2-0-slash-g, plus) on an encoded string. -/
def replacePct20Plus : List Char → List Char
  | c1 :: c2 :: c3 :: rest =>
    if c1 = Char.ofNat 37 ∧ c2 = Char.ofNat 50 ∧ c3 = Char.ofNat 48 then
      Char.ofNat 43 :: replacePct20Plus rest
    else
      c1 :: replacePct20Plus (c2 :: c3 :: rest)
  | c :: rest => c :: replacePct20Plus rest
  | [] => []

/-- encodePfValue from payfast-itn.js:
encodeURIComponent of the value (null/undefined rendered as the empty
string) with %20 then rewritten to +.  The same composed expression is used
inline by initiate-payfast.js for its passphrase segment. -/
def encodePfValue (v : Option String) : String :=
  String.mk (replacePct20Plus (encodeURIComponentJs (v.getD "")).toList)

/-- Bytes left verbatim by the application/x-www-form-urlencoded serializer
used by URLSearchParams: alphanumerics and * - . _ (codes 42 45 46 95). -/
def formUrlUnescaped (b : Nat) : Bool :=
  isAsciiAlphaNumByte b || b == 42 || b == 45 || b == 46 || b == 95

/-- Form-urlencoded serialization of one byte: space (32) becomes +,
unescaped bytes stay, the rest become %XY. -/
def formUrlEncodeByte (b : Nat) : String :=
  if b = 32 then String.mk [Char.ofNat 43]
  else if formUrlUnescaped b then String.mk [Char.ofNat b]
  else pctByte b

/-- Form-urlencoded serialization of a string (URLSearchParams encoding). -/
def formUrlEncode (s : String) : String :=
  String.join ((strBytes s).map formUrlEncodeByte)

/-- URLSearchParams.toString() on (name, value) pairs kept in append order:
each name and value form-urlencoded, pairs joined with &. -/
def urlSearchParamsToString (entries : List (String × String)) : String :=
  String.intercalate "&" (entries.map (fun kv => formUrlEncode kv.1 ++ "=" ++ formUrlEncode kv.2))

/-- Characters removed at either end by JavaScript String.prototype.trim:
ASCII whitespace, NBSP, the Unicode space separators, line/paragraph
separators and the BOM. -/
def isJsSpace (c : Char) : Bool :=
  c.toNat == 9 || c.toNat == 10 || c.toNat == 11 || c.toNat == 12 ||
    c.toNat == 13 || c.toNat == 32 || c.toNat == 160 || c.toNat == 5760 ||
    (8192 ≤ c.toNat && c.toNat ≤ 8202) || c.toNat == 8232 || c.toNat == 8233 ||
    c.toNat == 8239 || c.toNat == 8287 || c.toNat == 12288 || c.toNat == 65279

/-- JavaScript String.prototype.trim. -/
def jsTrim (s : String) : String :=
  String.mk (((s.toList.dropWhile isJsSpace).reverse.dropWhile isJsSpace).reverse)

/-- A PayFast parameter set: field names with values in object insertion
order.  A missing (undefined/null) value is Option.none.  JavaScript object
keys are unique; theorems that need this take a Nodup hypothesis. -/
abbrev PfParams := List (String × Option String)

/-- The filter applied by buildStringToSign in initiate-payfast.js:
keep an entry only when its value is neither undefined, null nor the empty
string. -/
def nonEmptyValue (kv : String × Option String) : Bool :=
  match kv.2 with
  | some v => v != ""
  | none => false

/-- The param string of buildStringToSign (initiate-payfast.js): entries in
insertion order, undefined/null/empty values dropped, serialized through
URLSearchParams. -/
def buildParamString (params : PfParams) : String :=
  urlSearchParamsToString ((params.filter nonEmptyValue).map (fun kv => (kv.1, kv.2.getD "")))

/-- buildStringToSign from initiate-payfast.js: the filtered insertion-order
param string, with the passphrase segment appended only when the passphrase
argument is a non-empty string.  The passphrase is encoded by
encodeURIComponent followed by the %20-to-+ rewrite, i.e. encodePfValue. -/
def buildStringToSign (params : PfParams) (passphrase : String) : String :=
  let paramString := buildParamString params
  if passphrase ≠ "" then
    paramString ++ "&passphrase=" ++ encodePfValue (some passphrase)
  else paramString

/-- Lexicographic comparison of character lists by code point: the order the
default JavaScript Array.prototype.sort comparator induces on the key
strings (identical to UTF-16 code unit order on the plane-0 keys the
functions use). -/
def charListLeb : List Char → List Char → Bool
  | [], _ => true
  | _ :: _, [] => false
  | a :: as, b :: bs =>
    if a.toNat < b.toNat then true
    else if b.toNat < a.toNat then false
    else charListLeb as bs

/-- Lexicographic string comparison by code point. -/
def strLeb (a b : String) : Bool :=
  charListLeb a.toList b.toList

/-- Object.keys(params).sort() from generatePfSignature (payfast-itn.js):
key names sorted lexicographically. -/
def sortedKeys (params : PfParams) : List String :=
  List.insertionSort (fun a b => strLeb a b = true) (params.map Prod.fst)

/-- The param string of generatePfSignature (payfast-itn.js): ALL keys,
sorted, each rendered as key=encodePfValue(value) with the key left raw,
joined with &. -/
def generatePfParamString (params : PfParams) : String :=
  String.intercalate "&"
    ((sortedKeys params).map (fun k => k ++ "=" ++ encodePfValue ((params.lookup k).join)))

/-- The string MD5-hashed by generatePfSignature (payfast-itn.js): the sorted
param string, with a passphrase segment appended when the passphrase is
truthy and non-empty after trimming; the passphrase is encoded UNtrimmed. -/
def generatePfStringToHash (params : PfParams) (passphrase : String) : String :=
  if passphrase ≠ "" ∧ jsTrim passphrase ≠ "" then
    generatePfParamString params ++ "&passphrase=" ++ encodePfValue (some passphrase)
  else generatePfParamString params

/-- The string signed by the initiate-payfast.js handler (line 196): it
passes the TRIMMED environment passphrase to buildStringToSign. -/
def initiatorStringToSign (params : PfParams) (envPassphrase : String) : String :=
  buildStringToSign params (jsTrim envPassphrase)

/-- The string hashed by the payfast-itn.js handler (line 66): it passes the
RAW environment passphrase to generatePfSignature. -/
def verifierStringToHash (params : PfParams) (envPassphrase : String) : String :=
  generatePfStringToHash params envPassphrase

/-- Lower-case hexadecimal digit for a value below 16. -/
def hexDigitLower (n : Nat) : Char :=
  if n < 10 then Char.ofNat (48 + n) else Char.ofNat (87 + n)

/-- JSON.stringify escaping of one character: quote and backslash get a
backslash, the named control escapes are used for 8 9 10 12 13, other
control characters become a unicode escape, everything else is verbatim. -/
def jsonEscapeChar (c : Char) : String :=
  if c = Char.ofNat 34 then String.mk [Char.ofNat 92, Char.ofNat 34]
  else if c = Char.ofNat 92 then String.mk [Char.ofNat 92, Char.ofNat 92]
  else if c = Char.ofNat 8 then String.mk [Char.ofNat 92, Char.ofNat 98]
  else if c = Char.ofNat 9 then String.mk [Char.ofNat 92, Char.ofNat 116]
  else if c = Char.ofNat 10 then String.mk [Char.ofNat 92, Char.ofNat 110]
  else if c = Char.ofNat 12 then String.mk [Char.ofNat 92, Char.ofNat 102]
  else if c = Char.ofNat 13 then String.mk [Char.ofNat 92, Char.ofNat 114]
  else if c.toNat < 32 then
    String.mk [Char.ofNat 92, Char.ofNat 117, Char.ofNat 48, Char.ofNat 48,
      hexDigitLower (c.toNat / 16), hexDigitLower (c.toNat % 16)]
  else String.mk [c]

/-- JSON.stringify rendering of a string, quotes included. -/
def jsonStr (s : String) : String :=
  "\"" ++ String.join (s.toList.map jsonEscapeChar) ++ "\""

/-- JSON.stringify of an object with the single field error, the body shape
used by the handlers' client-error responses. -/
def jsonErrorBody (msg : String) : String :=
  "\x7b\"error\":" ++ jsonStr msg ++ "\x7d"

/-- An HTTP response as returned by the Netlify handlers: status code and
body (headers are constants and carry no claim-relevant data). -/
structure HttpResponse where
  statusCode : Nat
  body : String
deriving DecidableEq

/-- pat begins the character list l. -/
def listStartsWith : List Char → List Char → Bool
  | [], _ => true
  | _ :: _, [] => false
  | p :: ps, c :: cs => p == c && listStartsWith ps cs

/-- pat occurs contiguously somewhere in l. -/
def listContainsSeq (pat : List Char) : List Char → Bool
  | [] => listStartsWith pat []
  | c :: cs => listStartsWith pat (c :: cs) || listContainsSeq pat cs

/-- s contains pat as a contiguous substring. -/
def strContains (s pat : String) : Bool :=
  listContainsSeq pat.toList s.toList

/-- The environment read by get-client-config.js, after the JavaScript
default: each process.env.X is rendered by X or the empty string, and
payfastSandbox keeps the raw PAYFAST_SANDBOX text. -/
structure ClientConfigEnv where
  supabaseUrl : String
  supabaseAnonKey : String
  payfastMerchantId : String
  payfastMerchantKey : String
  payfastPassphrase : String
  payfastSandbox : String
deriving DecidableEq

/-- JSON.stringify of the payload built by get-client-config.js, with the
object fields in their insertion order. -/
def getClientConfigBody (env : ClientConfigEnv) : String :=
  "\x7b\"supabaseUrl\":" ++ jsonStr env.supabaseUrl ++
    ",\"supabaseAnonKey\":" ++ jsonStr env.supabaseAnonKey ++
    ",\"payfastMerchantId\":" ++ jsonStr env.payfastMerchantId ++
    ",\"payfastMerchantKey\":" ++ jsonStr env.payfastMerchantKey ++
    ",\"payfastPassphrase\":" ++ jsonStr env.payfastPassphrase ++
    ",\"payfastSandbox\":" ++ (if env.payfastSandbox = "true" then "true" else "false") ++ "\x7d"

/-- The get-client-config.js handler: a 200 response whose body is the
stringified payload (building the payload cannot throw, so the catch branch
is dead code). -/
def getClientConfigHandler (env : ClientConfigEnv) : HttpResponse :=
  ⟨200, getClientConfigBody env⟩

/-- The console.log at initiate-payfast.js line 201: the full string to sign
is written to the log. -/
def initiateStringToSignLogLine (params : PfParams) (envPassphrase : String) : String :=
  "StringToSign: " ++ initiatorStringToSign params envPassphrase

/-- The console.log at initiate-payfast.js line 203. -/
def initiatePassphraseUsedLogLine (envPassphrase : String) : String :=
  "Passphrase used: " ++ (if jsTrim envPassphrase ≠ "" then "YES" else "NO")

/-- An order row as read and written by payfast-itn.js; only the fields the
claims mention are modelled. -/
structure Order where
  m_payment_id : String
  order_status : String
deriving DecidableEq

/-- The payment_status dispatch of payfast-itn.js lines 145-223: the
order_status value placed into updateData. -/
def mapPaymentStatus (payment_status : String) : String :=
  if payment_status = "COMPLETE" then "paid"
  else if payment_status = "FAILED" ∨ payment_status = "CANCELLED" then "failed"
  else if payment_status = "PENDING" then "pending"
  else "pending"

/-- The orders-table update issued at payfast-itn.js lines 226-229: the new
order_status together with the WHERE clauses of the query.  whereStatus
records an optional status condition so that the compare-and-set shape the
spec describes is expressible; the code supplies only the m_payment_id
equality. -/
structure OrdersUpdate where
  setStatus : String
  whereMPaymentId : String
  whereStatus : Option String
deriving DecidableEq

/-- Steps 4-5 of the payfast-itn.js handler for an order that was found: the
early return for paid/completed, otherwise the unconditional update keyed on
m_payment_id alone. -/
structure ItnOutcome where
  statusCode : Nat
  body : String
  update : Option OrdersUpdate
deriving DecidableEq

/-- payfast-itn.js lines 134-234 (signature already verified, order found;
referral and stock side effects do not touch orders.order_status). -/
def itnProcessOrder (order : Order) (payment_status : String) (m_payment_id : String) : ItnOutcome :=
  if order.order_status = "paid" ∨ order.order_status = "completed" then
    ⟨200, "OK (already processed)", none⟩
  else
    ⟨200, "OK", some ⟨mapPaymentStatus payment_status, m_payment_id, none⟩⟩

/-- Row-matching semantics of the conditional update: the m_payment_id
equality always applies, the status equality only when the query has one. -/
def updateMatches (u : OrdersUpdate) (o : Order) : Bool :=
  o.m_payment_id == u.whereMPaymentId &&
    (match u.whereStatus with
     | none => true
     | some s => o.order_status == s)

/-- Applying an update to a row: the status is written when the WHERE
clauses match, otherwise the row is untouched (zero rows affected). -/
def applyUpdate (u : OrdersUpdate) (o : Order) : Order :=
  if updateMatches u o then { o with order_status := u.setStatus } else o

/-- The order_status the order ends with after the ITN handler processes a
notification carrying the given payment_status. -/
def itnResultingStatus (o : Order) (payment_status : String) : String :=
  match (itnProcessOrder o payment_status o.m_payment_id).update with
  | none => o.order_status
  | some u => (applyUpdate u o).order_status

/-- Number(x.toFixed(2)) on a non-negative amount, with the JavaScript float
modelled as an exact rational: round to two decimal places. -/
def toFixed2 (x : ℚ) : ℚ :=
  (round (x * 100) : ℤ) / 100

/-- A row of the products table, restricted to the columns selected by
initiate-payfast.js (id, price, sale_price, stock, name). -/
structure Product where
  id : String
  price : ℚ
  sale_price : Option ℚ
  stock : Nat
  name : String
deriving DecidableEq

/-- A request cart line as read by initiate-payfast.js: product_id (none for
a missing or null field) and quantity (0 is the falsy case). -/
structure CartItem where
  product_id : Option String
  quantity : Nat
deriving DecidableEq

/-- A validated line item as inserted into the order row. -/
structure ValidatedItem where
  product_id : String
  name : String
  unit_price : ℚ
  quantity : Nat
  total : ℚ
deriving DecidableEq

/-- The per-item validation loop of initiate-payfast.js lines 103-146.  The
catalog argument is the products table: the .eq(id).single() query.  The
first failing item aborts the whole request with its error message; on
success the validated items and the accumulated total are returned. -/
def validateCartItems (catalog : String → Option Product) :
    List CartItem → Except String (List ValidatedItem × ℚ)
  | [] => Except.ok ([], 0)
  | item :: rest =>
    match item.product_id with
    | none => Except.error "Invalid cart item format"
    | some pid =>
      if pid = "" ∨ item.quantity = 0 then Except.error "Invalid cart item format"
      else
        match catalog pid with
        | none => Except.error ("Product " ++ pid ++ " not found")
        | some product =>
          if product.stock < item.quantity then
            Except.error ("Insufficient stock for " ++ product.name)
          else
            let unitPrice := product.sale_price.getD product.price
            let lineTotal := toFixed2 (unitPrice * (item.quantity : ℚ))
            match validateCartItems catalog rest with
            | Except.error e => Except.error e
            | Except.ok (vs, t) =>
              Except.ok (⟨product.id, product.name, unitPrice, item.quantity, lineTotal⟩ :: vs,
                lineTotal + t)

/-- The order row inserted by initiate-payfast.js lines 161-169. -/
structure OrderInsert where
  m_payment_id : String
  customer_name : String
  customer_email : String
  total : ℚ
  items : List ValidatedItem
  order_status : String
deriving DecidableEq

/-- An initiate-payfast response together with the order row the handler
inserted, none when the request never reached the insert. -/
structure InitResponse where
  statusCode : Nat
  body : String
  insert : Option OrderInsert
deriving DecidableEq

/-- The initiate-payfast.js handler after JSON parsing, on the success path
of the database calls.  m_payment_id is the generated UMZILA identifier
(time- and randomness-dependent, so a parameter here).  The 200 body is the
auto-submitting PayFast form, whose HTML no claim examines. -/
def initiateHandler (catalog : String → Option Product) (cartItems : List CartItem)
    (customerEmail customerName m_payment_id : String) : InitResponse :=
  if cartItems.isEmpty then ⟨400, jsonErrorBody "Cart empty", none⟩
  else if customerEmail = "" then ⟨400, jsonErrorBody "Email required", none⟩
  else
    match validateCartItems catalog cartItems with
    | Except.error e => ⟨400, jsonErrorBody e, none⟩
    | Except.ok (items, total0) =>
      let totalNumber := toFixed2 total0
      if totalNumber ≤ 0 then ⟨400, jsonErrorBody "Invalid order total", none⟩
      else
        ⟨200, "",
          some ⟨m_payment_id, (if customerName ≠ "" then customerName else customerEmail),
            customerEmail, totalNumber, items, "pending_payment"⟩⟩

/-- A raw cart item as received by validate-cart.js, reduced to the fields
its loop reads: the collapsed id alternatives (rawItem.id or product_id or
productId), the collapsed variant id, and the collapsed size field. -/
structure VCRawItem where
  id : Option String
  variant_id : Option String
  size : Option String
deriving DecidableEq

/-- The size normalization of validate-cart.js line 84: a falsy size falls
back to the string One Size, so the normalized size is never empty. -/
def normalizeSize (sz : Option String) : String :=
  match sz with
  | some s => if s = "" then "One Size" else s
  | none => "One Size"

/-- Truthiness of an optional string field. -/
def truthyOpt : Option String → Bool
  | some s => s != ""
  | none => false

/-- The runtime error raised by dereferencing the never-declared identifier
variantMap at validate-cart.js lines 107-108. -/
inductive JsError
  | referenceErrorVariantMap
deriving DecidableEq

/-- The item loop of validate-cart.js lines 77-144.  A missing id or a
product absent from the catalog sets hasChanges and continues.  A found
product reaches the variant lookup: when variant_id is truthy line 107
evaluates variantMap and throws, otherwise the normalized size (always
truthy) makes line 108 evaluate variantMap and throw.  The push below those
lines is therefore unreachable for found products, so the returned value is
the hasChanges flag of the skipped items. -/
def vcProcessItems (catalogHas : String → Bool) : List VCRawItem → Except JsError Bool
  | [] => Except.ok false
  | item :: rest =>
    match item.id with
    | none => (vcProcessItems catalogHas rest).map (fun _ => true)
    | some pid =>
      if catalogHas pid = false then (vcProcessItems catalogHas rest).map (fun _ => true)
      else if truthyOpt item.variant_id then Except.error JsError.referenceErrorVariantMap
      else if normalizeSize item.size != "" then Except.error JsError.referenceErrorVariantMap
      else vcProcessItems catalogHas rest

/-- The catch-branch body of validate-cart.js lines 188-194, with the
ReferenceError message Node produces for variantMap. -/
def vcInternalErrorBody : String :=
  "\x7b\"error\":\"Internal server error\",\"details\":\"variantMap is not defined\"\x7d"

/-- The 200 body of validate-cart.js lines 178-183.  This branch is reached
only when every item was skipped, so validatedCart is empty and total is 0;
hasChanges reports whether any item existed. -/
def vcSuccessBody (hasChanges : Bool) : String :=
  "\x7b\"validatedCart\":[],\"total\":0,\"hasChanges\":" ++
    (if hasChanges then "true" else "false") ++ ",\"message\":" ++
    jsonStr (if hasChanges then "Cart has been updated with current prices and stock"
             else "Cart is valid") ++ "\x7d"

/-- The validate-cart.js handler: method gate, cart shape gate (none stands
for a missing or non-array cartItems field), then the item loop with the
outer catch turning a thrown error into the 500 response.  Supabase
configuration and the products query are taken to succeed; the userId cart
upsert does not change the response. -/
def vcHandler (httpMethod : String) (cartItems : Option (List VCRawItem))
    (catalogHas : String → Bool) : HttpResponse :=
  if httpMethod ≠ "POST" then ⟨405, jsonErrorBody "Method not allowed"⟩
  else
    match cartItems with
    | none => ⟨400, jsonErrorBody "Invalid cart items"⟩
    | some items =>
      match vcProcessItems catalogHas items with
      | Except.error JsError.referenceErrorVariantMap => ⟨500, vcInternalErrorBody⟩
      | Except.ok hc => ⟨200, vcSuccessBody hc⟩

/-- A cart item whose product_id and quantity fields are truthy, so the
initiate-payfast loop takes it past the format check. -/
def itemWellFormed (item : CartItem) : Bool :=
  truthyOpt item.product_id && item.quantity != 0

/-- A cart item on which the initiate-payfast loop fails: its product is not
in the catalog, or its quantity exceeds the stock on record. -/
def itemOffending (catalog : String → Option Product) (item : CartItem) : Bool :=
  match item.product_id with
  | none => false
  | some pid =>
    match catalog pid with
    | none => true
    | some product => decide (product.stock < item.quantity)

/-- A validate-cart item whose (normalized) product id is present in the
catalog, so the loop body reaches the variant lookup. -/
def vcItemFound (catalogHas : String → Bool) (it : VCRawItem) : Bool :=
  match it.id with
  | some pid => catalogHas pid
  | none => false

/-! ### Order properties of the key comparison used by the verifier sort -/

theorem char_eq_of_toNat_eq {a b : Char} (h : a.toNat = b.toNat) : a = b := by
  rw [← Char.ofNat_toNat a, ← Char.ofNat_toNat b, h]

theorem charListLeb_total : ∀ a b : List Char, charListLeb a b = true ∨ charListLeb b a = true
  | [], _ => Or.inl rfl
  | _ :: _, [] => Or.inr rfl
  | a :: as, b :: bs => by
    simp only [charListLeb]
    by_cases h1 : a.toNat < b.toNat
    · left; simp [h1]
    · by_cases h2 : b.toNat < a.toNat
      · right; simp [h2]
      · simpa [h1, h2] using charListLeb_total as bs

theorem charListLeb_trans :
    ∀ a b c : List Char, charListLeb a b = true → charListLeb b c = true →
      charListLeb a c = true
  | [], _, _, _, _ => rfl
  | _ :: _, [], _, hab, _ => by simp [charListLeb] at hab
  | _ :: _, _ :: _, [], _, hbc => by simp [charListLeb] at hbc
  | a :: as, b :: bs, c :: cs, hab, hbc => by
    simp only [charListLeb] at hab hbc ⊢
    by_cases h1 : a.toNat < b.toNat <;> by_cases h2 : b.toNat < c.toNat
    · simp [show a.toNat < c.toNat by omega]
    · by_cases h3 : c.toNat < b.toNat
      · simp [h2, h3] at hbc
      · simp [show a.toNat < c.toNat by omega]
    · by_cases h3 : b.toNat < a.toNat
      · simp [h1, h3] at hab
      · simp [show a.toNat < c.toNat by omega]
    · by_cases h3 : b.toNat < a.toNat
      · simp [h1, h3] at hab
      · by_cases h4 : c.toNat < b.toNat
        · simp [h2, h4] at hbc
        · simp only [h1, h3, if_neg, ite_false] at hab
          simp only [h2, h4, if_neg, ite_false] at hbc
          simp [show ¬ a.toNat < c.toNat by omega, show ¬ c.toNat < a.toNat by omega]
          exact charListLeb_trans as bs cs hab hbc

theorem charListLeb_antisymm :
    ∀ a b : List Char, charListLeb a b = true → charListLeb b a = true → a = b
  | [], [], _, _ => rfl
  | [], _ :: _, _, hba => by simp [charListLeb] at hba
  | _ :: _, [], hab, _ => by simp [charListLeb] at hab
  | a :: as, b :: bs, hab, hba => by
    simp only [charListLeb] at hab hba
    by_cases h1 : a.toNat < b.toNat
    · simp [show ¬ b.toNat < a.toNat by omega, show ¬ a.toNat < b.toNat → False by omega, h1] at hba
    · by_cases h2 : b.toNat < a.toNat
      · simp [h1, h2] at hab
      · simp only [h1, h2, if_neg, ite_false] at hab hba
        rw [char_eq_of_toNat_eq (show a.toNat = b.toNat by omega),
          charListLeb_antisymm as bs hab hba]

instance : IsTotal String (fun a b => strLeb a b = true) :=
  ⟨fun a b => charListLeb_total a.toList b.toList⟩

instance : IsTrans String (fun a b => strLeb a b = true) :=
  ⟨fun a b c => charListLeb_trans a.toList b.toList c.toList⟩

instance : IsAntisymm String (fun a b => strLeb a b = true) :=
  ⟨fun a b hab hba => by
    have h := charListLeb_antisymm a.toList b.toList hab hba
    cases a; cases b; exact congrArg String.mk (by simpa [String.toList] using h)⟩

/-! ### Association-list lookup is insertion-order independent on unique keys -/

theorem lookup_eq_of_perm {k : String} {l1 l2 : PfParams} (h : l1.Perm l2)
    (hnd : (l1.map Prod.fst).Nodup) : l1.lookup k = l2.lookup k := by
  induction h with
  | nil => rfl
  | cons x h ih =>
    rcases x with ⟨k1, v1⟩
    simp only [List.map_cons, List.nodup_cons] at hnd
    simp only [List.lookup]
    cases hk : k == k1
    · exact ih hnd.2
    · rfl
  | swap x y l =>
    rcases x with ⟨kx, vx⟩
    rcases y with ⟨ky, vy⟩
    simp only [List.map_cons, List.nodup_cons, List.mem_cons, not_or] at hnd
    simp only [List.lookup]
    cases h1 : k == ky <;> cases h2 : k == kx <;> try rfl
    have e1 : k = ky := by simpa using h1
    have e2 : k = kx := by simpa using h2
    exact absurd (e1.symm.trans e2) hnd.1.1
  | trans h1 h2 ih1 ih2 =>
    exact (ih1 hnd).trans (ih2 (((h1.map Prod.fst).nodup_iff).mp hnd))

theorem sortedKeys_eq_of_perm {p1 p2 : PfParams} (h : p1.Perm p2) :
    sortedKeys p1 = sortedKeys p2 := by
  exact List.eq_of_perm_of_sorted
    ((List.perm_insertionSort _ _).trans ((h.map Prod.fst).trans
      (List.perm_insertionSort _ _).symm))
    (List.sorted_insertionSort (fun a b : String => strLeb a b = true) _)
    (List.sorted_insertionSort (fun a b : String => strLeb a b = true) _)

theorem generatePfParamString_eq_of_perm {p1 p2 : PfParams} (h : p1.Perm p2)
    (hnd : (p1.map Prod.fst).Nodup) :
    generatePfParamString p1 = generatePfParamString p2 := by
  unfold generatePfParamString
  rw [sortedKeys_eq_of_perm h]
  congr 1
  refine List.map_congr_left (fun k _ => ?_)
  rw [lookup_eq_of_perm h hnd]

/-! ### Claims -/

/-- C1: the spec claims the canonical string MD5-hashed by the initiator's
buildStringToSign path is byte-identical to the one hashed by the verifier's
generatePfSignature on the same field set, so the signatures always agree.
On the two-field set below the initiator signs the insertion-order string
with empty values dropped, while the verifier signs the key-sorted string,
so the canonical strings (hence the MD5 signatures) differ. -/
theorem C1_signing_paths_diverge :
    buildStringToSign [("merchant_id", some "10000100"), ("amount", some "100.00")] "" =
      "merchant_id=10000100&amount=100.00" ∧
    generatePfStringToHash [("merchant_id", some "10000100"), ("amount", some "100.00")] "" =
      "amount=100.00&merchant_id=10000100" ∧
    buildStringToSign [("merchant_id", some "10000100"), ("amount", some "100.00")] "" ≠
      generatePfStringToHash [("merchant_id", some "10000100"), ("amount", some "100.00")] "" := by
  refine ⟨by decide, by decide, by decide⟩

/-- C2: the spec claims responses and log strings never contain the shared
passphrase and that the get-client-config response and initiator log are
independent of PAYFAST_PASSPHRASE.  In fact the get-client-config body
returns the passphrase verbatim (and so varies with it), and the initiator's
StringToSign log line embeds the encoded passphrase; even its
Passphrase-used line depends on the secret. -/
theorem C2_passphrase_leaks :
    strContains (getClientConfigHandler ⟨"", "", "", "", "secret123", ""⟩).body "secret123" = true ∧
    (getClientConfigHandler ⟨"", "", "", "", "secret123", ""⟩).body ≠
      (getClientConfigHandler ⟨"", "", "", "", "hunter2", ""⟩).body ∧
    strContains (initiateStringToSignLogLine [] "secret123") "secret123" = true ∧
    initiatePassphraseUsedLogLine "secret123" ≠ initiatePassphraseUsedLogLine "" := by
  refine ⟨by decide, by decide, by decide, by decide⟩

/-- C3 counterexample: a COMPLETE notification for an order already in the
terminal state failed is reprocessed and moves the order to paid, so the
claim that terminal states absorb notifications unchanged is false. -/
theorem C3_cex_failed_reprocessed :
    itnResultingStatus ⟨"M1", "failed"⟩ "COMPLETE" = "paid" ∧
    ("paid" : String) ≠ "failed" := by
  refine ⟨by decide, by decide⟩

/-- C3 amended: only an order whose status is paid (or completed) gets the
idempotent no-op: the handler acknowledges with OK (already processed) and
issues no update, leaving the status (and every other field) unchanged.  An
order in failed is not treated as terminal. -/
theorem C3_amended_paid_is_noop (o : Order) (ps m : String)
    (h : o.order_status = "paid" ∨ o.order_status = "completed") :
    itnProcessOrder o ps m = ⟨200, "OK (already processed)", none⟩ ∧
    itnResultingStatus o ps = o.order_status := by
  constructor
  · unfold itnProcessOrder
    rw [if_pos h]
  · unfold itnResultingStatus itnProcessOrder
    rw [if_pos h]

/-- C3 witness: the amended theorem applied to a paid order. -/
theorem C3_amended_paid_is_noop_witness :
    (("paid" : String) = "paid" ∨ ("paid" : String) = "completed") ∧
    (itnProcessOrder ⟨"M2", "paid"⟩ "COMPLETE" "M2" = ⟨200, "OK (already processed)", none⟩ ∧
      itnResultingStatus ⟨"M2", "paid"⟩ "COMPLETE" = "paid") :=
  ⟨Or.inl rfl, C3_amended_paid_is_noop ⟨"M2", "paid"⟩ "COMPLETE" "M2" (Or.inl rfl)⟩

/-- C4 counterexample: the order-status write the verifier issues carries no
status condition (whereStatus is none), and on an order whose current status
is failed (not pending_payment) the update still matches and writes paid, so
the claimed compare-and-set on pending_payment is false. -/
theorem C4_cex_update_has_no_status_guard :
    (itnProcessOrder ⟨"M1", "failed"⟩ "COMPLETE" "M1").update = some ⟨"paid", "M1", none⟩ ∧
    updateMatches ⟨"paid", "M1", none⟩ ⟨"M1", "failed"⟩ = true ∧
    ("failed" : String) ≠ "pending_payment" := by
  refine ⟨by decide, by decide, by decide⟩

/-- C4 amended: every order-status write the verifier issues filters only on
m_payment_id — its whereStatus is none, and it matches the order whatever its
current status; the only idempotency guard is the earlier non-atomic read
check for paid/completed. -/
theorem C4_amended_update_unconditional (o : Order) (ps m : String) (u : OrdersUpdate)
    (hu : (itnProcessOrder o ps m).update = some u) :
    u.whereStatus = none ∧ (o.m_payment_id = m → updateMatches u o = true) := by
  unfold itnProcessOrder at hu
  by_cases h : o.order_status = "paid" ∨ o.order_status = "completed"
  · rw [if_pos h] at hu
    exact absurd hu (by simp)
  · rw [if_neg h] at hu
    have hu' : u = ⟨mapPaymentStatus ps, m, none⟩ := by simpa using hu.symm
    subst hu'
    refine ⟨rfl, fun hm => ?_⟩
    simp [updateMatches, hm]

/-- C4 witness: the amended theorem applied to a failed order. -/
theorem C4_amended_update_unconditional_witness :
    (itnProcessOrder ⟨"M1", "failed"⟩ "COMPLETE" "M1").update = some ⟨"paid", "M1", none⟩ ∧
    ((⟨"paid", "M1", none⟩ : OrdersUpdate).whereStatus = none ∧
      updateMatches ⟨"paid", "M1", none⟩ ⟨"M1", "failed"⟩ = true) :=
  ⟨by decide,
    (C4_amended_update_unconditional ⟨"M1", "failed"⟩ "COMPLETE" "M1" ⟨"paid", "M1", none⟩
      (by decide)).1,
    (C4_amended_update_unconditional ⟨"M1", "failed"⟩ "COMPLETE" "M1" ⟨"paid", "M1", none⟩
      (by decide)).2 rfl⟩

/-- C5 counterexample: a verified PENDING notification does not leave the
order at pending_payment: the handler writes the different value pending. -/
theorem C5_cex_pending_overwrites :
    itnResultingStatus ⟨"M1", "pending_payment"⟩ "PENDING" = "pending" ∧
    ("pending" : String) ≠ "pending_payment" := by
  refine ⟨by decide, by decide⟩

/-- C5 amended: COMPLETE alone maps to paid, and FAILED/CANCELLED alone map
to failed; but every other payment_status (PENDING and unknown values
included) makes the handler write the status pending, instead of leaving the
order at pending_payment. -/
theorem C5_amended_status_mapping (ps : String) :
    (mapPaymentStatus ps = "paid" ↔ ps = "COMPLETE") ∧
    (mapPaymentStatus ps = "failed" ↔ (ps = "FAILED" ∨ ps = "CANCELLED")) ∧
    (ps ≠ "COMPLETE" → ¬(ps = "FAILED" ∨ ps = "CANCELLED") →
      mapPaymentStatus ps = "pending") := by
  by_cases h1 : ps = "COMPLETE"
  · subst h1; decide
  · by_cases h2 : ps = "FAILED" ∨ ps = "CANCELLED"
    · rcases h2 with h | h
      · subst h; decide
      · subst h; decide
    · by_cases h3 : ps = "PENDING"
      · subst h3; decide
      · unfold mapPaymentStatus
        rw [if_neg h1, if_neg h2, if_neg h3]
        exact ⟨⟨fun hh => absurd hh (by decide), fun hh => absurd hh h1⟩,
          ⟨fun hh => absurd hh (by decide), fun hh => absurd hh h2⟩, fun _ _ => rfl⟩

/-- C5 witness: the amended theorem applied at PENDING. -/
theorem C5_amended_status_mapping_witness :
    (("PENDING" : String) ≠ "COMPLETE") ∧
    (¬(("PENDING" : String) = "FAILED" ∨ ("PENDING" : String) = "CANCELLED")) ∧
    mapPaymentStatus "PENDING" = "pending" :=
  ⟨by decide, by decide, (C5_amended_status_mapping "PENDING").2.2 (by decide) (by decide)⟩

/-- C6 counterexample: the verifier does not exclude an entry whose value is
the empty string: its canonical string for the one-field set is a=, while the
initiator's canonical string is empty. -/
theorem C6_cex_verifier_keeps_empty :
    generatePfStringToHash [("a", some "")] "" = "a=" ∧
    buildStringToSign [("a", some "")] "" = "" ∧
    ("a=" : String) ≠ "" := by
  refine ⟨by decide, by decide, by decide⟩

/-- C6 amended: only the outbound initiator excludes absent/empty entries
before any encoding (its canonical string is invariant under pre-filtering
with its own nonEmptyValue filter); the inbound verifier keeps every field
of every ParameterSet — its sorted key list is a permutation of ALL the
keys, so every entry's key appears in the canonical string — and it renders
an absent or empty value as the empty string after the equals sign, i.e. the
pair key=. -/
theorem C6_amended_only_initiator_filters :
    (∀ (params : PfParams) (pass : String),
      buildStringToSign params pass = buildStringToSign (params.filter nonEmptyValue) pass) ∧
    (∀ (params : PfParams), (sortedKeys params).Perm (params.map Prod.fst)) ∧
    (∀ (params : PfParams) (kv : String × Option String), kv ∈ params →
      kv.1 ∈ sortedKeys params) ∧
    encodePfValue none = "" ∧ encodePfValue (some "") = "" ∧
    generatePfStringToHash [("a", some ""), ("b", some "1")] "" = "a=&b=1" := by
  refine ⟨?_, ?_, ?_, by decide, by decide, by decide⟩
  · intro params pass
    simp [buildStringToSign, buildParamString, List.filter_filter, Bool.and_self]
  · intro params
    exact List.perm_insertionSort _ _
  · intro params kv hmem
    exact ((List.perm_insertionSort _ _).mem_iff).mpr (List.mem_map_of_mem Prod.fst hmem)

/-- C6 witness: the inclusion fact of the amended theorem exercised on the
two-entry set whose first value is empty. -/
theorem C6_amended_only_initiator_filters_witness :
    ((("a" : String), some "") ∈ [(("a" : String), some ""), ("b", some "1")]) ∧
    ("a" : String) ∈ sortedKeys [(("a" : String), some ""), ("b", some "1")] :=
  ⟨by decide,
    C6_amended_only_initiator_filters.2.2.1 [("a", some ""), ("b", some "1")]
      ("a", some "") (by decide)⟩

/-- C7 counterexample: with the configured passphrase consisting of x
surrounded by spaces (non-empty after trimming), the verifier's canonical
string ends with the encoding of the UNtrimmed passphrase, +x+, not with the
encoding x of the trimmed one. -/
theorem C7_cex_verifier_passphrase_untrimmed :
    verifierStringToHash [] " x " = "&passphrase=+x+" ∧
    initiatorStringToSign [] " x " = "&passphrase=x" ∧
    ("&passphrase=+x+" : String) ≠ "&passphrase=x" := by
  refine ⟨by decide, by decide, by decide⟩

/-- C7 amended: when the passphrase is non-empty after trimming, both sides
append a final &passphrase= segment, but the initiator encodes the TRIMMED
passphrase while the verifier encodes the RAW one (they agree exactly when
the passphrase carries no surrounding whitespace); when the passphrase trims
to empty, neither side appends anything. -/
theorem C7_amended_passphrase_segment (params : PfParams) (p : String) :
    (jsTrim p ≠ "" →
      initiatorStringToSign params p =
        buildParamString params ++ "&passphrase=" ++ encodePfValue (some (jsTrim p)) ∧
      verifierStringToHash params p =
        generatePfParamString params ++ "&passphrase=" ++ encodePfValue (some p)) ∧
    (jsTrim p = "" →
      initiatorStringToSign params p = buildParamString params ∧
      verifierStringToHash params p = generatePfParamString params) := by
  constructor
  · intro h
    have hp : p ≠ "" := fun e => h (by rw [e]; decide)
    constructor
    · unfold initiatorStringToSign buildStringToSign
      rw [if_pos h]
    · unfold verifierStringToHash generatePfStringToHash
      rw [if_pos ⟨hp, h⟩]
  · intro h
    constructor
    · unfold initiatorStringToSign buildStringToSign
      rw [h, if_neg (by simp)]
    · unfold verifierStringToHash generatePfStringToHash
      rw [if_neg (fun hc => hc.2 h)]

/-- C7 witness: the amended theorem applied to the whitespace passphrase. -/
theorem C7_amended_passphrase_segment_witness :
    jsTrim " x " ≠ "" ∧
    (initiatorStringToSign [] " x " =
        buildParamString [] ++ "&passphrase=" ++ encodePfValue (some (jsTrim " x ")) ∧
      verifierStringToHash [] " x " =
        generatePfParamString [] ++ "&passphrase=" ++ encodePfValue (some " x ")) :=
  ⟨by decide, (C7_amended_passphrase_segment [] " x ").1 (by decide)⟩

/-- C8 counterexample: the initiator's canonical string is not insertion-order
invariant: the same two entries fed in the two orders produce different
canonical strings, hence different signatures. -/
theorem C8_cex_initiator_order_sensitive :
    buildStringToSign [("a", some "1"), ("b", some "2")] "" = "a=1&b=2" ∧
    buildStringToSign [("b", some "2"), ("a", some "1")] "" = "b=2&a=1" ∧
    ("a=1&b=2" : String) ≠ "b=2&a=1" := by
  refine ⟨by decide, by decide, by decide⟩

/-- C8 amended: the VERIFIER's signature input is invariant under any
permutation of the (unique-key) field entries, and in both encoders the
value a-space-b of field a contributes the pair a=a+b (space as +, never
%20); the initiator's encoder, by contrast, follows insertion order. -/
theorem C8_amended_verifier_perm_invariant (p1 p2 : PfParams) (pass : String)
    (hperm : p1.Perm p2) (hnd : (p1.map Prod.fst).Nodup) :
    generatePfStringToHash p1 pass = generatePfStringToHash p2 pass ∧
    buildStringToSign [("a", some "a b")] "" = "a=a+b" ∧
    generatePfStringToHash [("a", some "a b")] "" = "a=a+b" := by
  refine ⟨?_, by decide, by decide⟩
  unfold generatePfStringToHash
  rw [generatePfParamString_eq_of_perm hperm hnd]

/-- C8 witness: the amended theorem applied to a two-entry transposition. -/
theorem C8_amended_verifier_perm_invariant_witness :
    List.Perm [(("a" : String), some "1"), ("b", some "2")] [("b", some "2"), ("a", some "1")] ∧
    ([(("a" : String), some "1"), ("b", some "2")].map Prod.fst).Nodup ∧
    (generatePfStringToHash [("a", some "1"), ("b", some "2")] "pass" =
        generatePfStringToHash [("b", some "2"), ("a", some "1")] "pass" ∧
      buildStringToSign [("a", some "a b")] "" = "a=a+b" ∧
      generatePfStringToHash [("a", some "a b")] "" = "a=a+b") :=
  ⟨by decide, by decide,
    C8_amended_verifier_perm_invariant _ _ "pass" (by decide) (by decide)⟩

/-- On well-formed items the validation loop surfaces the error of the first
offending item: the not-found or insufficient-stock message of some cart
member. -/
theorem validateCartItems_error_of_offending (catalog : String → Option Product) :
    ∀ (items : List CartItem),
      (∀ it ∈ items, itemWellFormed it = true) →
      (∃ it ∈ items, itemOffending catalog it = true) →
      ∃ it ∈ items, ∃ pid, it.product_id = some pid ∧
        ((catalog pid = none ∧
          validateCartItems catalog items =
            Except.error ("Product " ++ pid ++ " not found")) ∨
         (∃ product, catalog pid = some product ∧ product.stock < it.quantity ∧
          validateCartItems catalog items =
            Except.error ("Insufficient stock for " ++ product.name)))
  | [], _, hbad => absurd hbad (by simp)
  | item :: rest, hwf, hbad => by
    have hwf0 : itemWellFormed item = true := hwf item (List.mem_cons_self item rest)
    rcases hitem : item.product_id with _ | pid
    · rw [itemWellFormed, hitem] at hwf0
      simp [truthyOpt] at hwf0
    · rw [itemWellFormed, hitem] at hwf0
      simp only [truthyOpt, Bool.and_eq_true, bne_iff_ne, ne_eq] at hwf0
      obtain ⟨hpid, hq⟩ := hwf0
      rcases hc : catalog pid with _ | product
      · refine ⟨item, List.mem_cons_self item rest, pid, hitem, Or.inl ⟨hc, ?_⟩⟩
        simp [validateCartItems, hitem, hc, hpid, hq]
      · by_cases hlt : product.stock < item.quantity
        · refine ⟨item, List.mem_cons_self item rest, pid, hitem,
            Or.inr ⟨product, hc, hlt, ?_⟩⟩
          simp [validateCartItems, hitem, hc, hpid, hq, hlt]
        · have hoff : itemOffending catalog item = false := by
            simp [itemOffending, hitem, hc, hlt]
          rcases hbad with ⟨it, hmem, hbadit⟩
          rcases List.mem_cons.mp hmem with rfl | hmemrest
          · rw [hoff] at hbadit
            exact absurd hbadit (by simp)
          · obtain ⟨it2, hmem2, pid2, hpid2, hdisj⟩ :=
              validateCartItems_error_of_offending catalog rest
                (fun x hx => hwf x (List.mem_cons_of_mem _ hx)) ⟨it, hmemrest, hbadit⟩
            refine ⟨it2, List.mem_cons_of_mem _ hmem2, pid2, hpid2, ?_⟩
            rcases hdisj with ⟨hcat2, herr⟩ | ⟨prod2, hcat2, hlt2, herr⟩
            · refine Or.inl ⟨hcat2, ?_⟩
              simp [validateCartItems, hitem, hc, hpid, hq, hlt, herr]
            · refine Or.inr ⟨prod2, hcat2, hlt2, ?_⟩
              simp [validateCartItems, hitem, hc, hpid, hq, hlt, herr]

/-- C9: a request whose (well-formed) cart contains a missing-product or
understocked line is rejected with a 400 client error naming the offending
product, and the handler performs no order insert. -/
theorem C9_failing_validation_no_insert (catalog : String → Option Product)
    (cartItems : List CartItem) (customerEmail customerName m_payment_id : String)
    (hemail : customerEmail ≠ "")
    (hwf : ∀ it ∈ cartItems, itemWellFormed it = true)
    (hbad : ∃ it ∈ cartItems, itemOffending catalog it = true) :
    (initiateHandler catalog cartItems customerEmail customerName m_payment_id).statusCode = 400 ∧
    (initiateHandler catalog cartItems customerEmail customerName m_payment_id).insert = none ∧
    ∃ it ∈ cartItems, ∃ pid, it.product_id = some pid ∧
      ((catalog pid = none ∧
        (initiateHandler catalog cartItems customerEmail customerName m_payment_id).body =
          jsonErrorBody ("Product " ++ pid ++ " not found")) ∨
       (∃ product, catalog pid = some product ∧ product.stock < it.quantity ∧
        (initiateHandler catalog cartItems customerEmail customerName m_payment_id).body =
          jsonErrorBody ("Insufficient stock for " ++ product.name))) := by
  have hne : cartItems.isEmpty = false := by
    rcases hbad with ⟨it, hmem, _⟩
    cases cartItems
    · simp at hmem
    · rfl
  obtain ⟨it, hmem, pid, hpid, hdisj⟩ :=
    validateCartItems_error_of_offending catalog cartItems hwf hbad
  rcases hdisj with ⟨hcat, herr⟩ | ⟨product, hcat, hlt, herr⟩
  · have hh : initiateHandler catalog cartItems customerEmail customerName m_payment_id =
        ⟨400, jsonErrorBody ("Product " ++ pid ++ " not found"), none⟩ := by
      simp [initiateHandler, hne, hemail, herr]
    rw [hh]
    exact ⟨rfl, rfl, it, hmem, pid, hpid, Or.inl ⟨hcat, rfl⟩⟩
  · have hh : initiateHandler catalog cartItems customerEmail customerName m_payment_id =
        ⟨400, jsonErrorBody ("Insufficient stock for " ++ product.name), none⟩ := by
      simp [initiateHandler, hne, hemail, herr]
    rw [hh]
    exact ⟨rfl, rfl, it, hmem, pid, hpid, Or.inr ⟨product, hcat, hlt, rfl⟩⟩

/-- C9 witness: one line of quantity 2 against a catalog holding stock 1. -/
theorem C9_failing_validation_no_insert_witness :
    (("a@b.c" : String) ≠ "") ∧
    (∀ it ∈ [CartItem.mk (some "p1") 2], itemWellFormed it = true) ∧
    (∃ it ∈ [CartItem.mk (some "p1") 2],
      itemOffending (fun i => if i = "p1" then some ⟨"p1", 100, none, 1, "Cap"⟩ else none)
        it = true) ∧
    ((initiateHandler (fun i => if i = "p1" then some ⟨"p1", 100, none, 1, "Cap"⟩ else none)
        [CartItem.mk (some "p1") 2] "a@b.c" "" "UMZILA-1").statusCode = 400 ∧
     (initiateHandler (fun i => if i = "p1" then some ⟨"p1", 100, none, 1, "Cap"⟩ else none)
        [CartItem.mk (some "p1") 2] "a@b.c" "" "UMZILA-1").insert = none ∧
     ∃ it ∈ [CartItem.mk (some "p1") 2], ∃ pid, it.product_id = some pid ∧
      (((fun i => if i = "p1" then some (⟨"p1", 100, none, 1, "Cap"⟩ : Product) else none) pid
          = none ∧
        (initiateHandler (fun i => if i = "p1" then some ⟨"p1", 100, none, 1, "Cap"⟩ else none)
          [CartItem.mk (some "p1") 2] "a@b.c" "" "UMZILA-1").body =
            jsonErrorBody ("Product " ++ pid ++ " not found")) ∨
       (∃ product,
          (fun i => if i = "p1" then some (⟨"p1", 100, none, 1, "Cap"⟩ : Product) else none) pid
            = some product ∧ product.stock < it.quantity ∧
          (initiateHandler (fun i => if i = "p1" then some ⟨"p1", 100, none, 1, "Cap"⟩ else none)
            [CartItem.mk (some "p1") 2] "a@b.c" "" "UMZILA-1").body =
              jsonErrorBody ("Insufficient stock for " ++ product.name)))) :=
  ⟨by decide, by decide, by decide,
    C9_failing_validation_no_insert
      (fun i => if i = "p1" then some ⟨"p1", 100, none, 1, "Cap"⟩ else none)
      [CartItem.mk (some "p1") 2] "a@b.c" "" "UMZILA-1"
      (by decide) (by decide) (by decide)⟩

/-- The normalized size is never the empty string, so it is always truthy. -/
theorem normalizeSize_ne_empty (sz : Option String) : (normalizeSize sz != "") = true := by
  rcases sz with _ | s
  · decide
  · by_cases h : s = ""
    · simp [normalizeSize, h]
    · simp [normalizeSize, h]

/-- As soon as some item's product id is in the catalog, the validate-cart
loop dereferences the undeclared variantMap and throws. -/
theorem vcProcessItems_error_of_found (catalogHas : String → Bool) :
    ∀ (items : List VCRawItem),
      (∃ it ∈ items, vcItemFound catalogHas it = true) →
      vcProcessItems catalogHas items = Except.error JsError.referenceErrorVariantMap
  | [], hfound => absurd hfound (by simp)
  | item :: rest, hfound => by
    rcases hid : item.id with _ | pid
    · have hrest : ∃ it ∈ rest, vcItemFound catalogHas it = true := by
        rcases hfound with ⟨it, hmem, hf⟩
        rcases List.mem_cons.mp hmem with rfl | hr
        · simp [vcItemFound, hid] at hf
        · exact ⟨it, hr, hf⟩
      have herr := vcProcessItems_error_of_found catalogHas rest hrest
      simp [vcProcessItems, hid, herr, Except.map]
    · cases hc : catalogHas pid
      · have hrest : ∃ it ∈ rest, vcItemFound catalogHas it = true := by
          rcases hfound with ⟨it, hmem, hf⟩
          rcases List.mem_cons.mp hmem with rfl | hr
          · simp [vcItemFound, hid, hc] at hf
          · exact ⟨it, hr, hf⟩
        have herr := vcProcessItems_error_of_found catalogHas rest hrest
        simp [vcProcessItems, hid, hc, herr, Except.map]
      · by_cases hv : truthyOpt item.variant_id = true
        · simp [vcProcessItems, hid, hc, hv]
        · have hb : truthyOpt item.variant_id = false := by
            simpa using hv
          simp [vcProcessItems, hid, hc, hb, normalizeSize_ne_empty]

/-- C10: any POST cart-validation request whose cart holds at least one item
found in the catalog ends as the 500 Internal-server-error response (the
ReferenceError on variantMap), never as the advertised validatedCart/total
result. -/
theorem C10_found_product_500 (catalogHas : String → Bool) (items : List VCRawItem)
    (hfound : ∃ it ∈ items, vcItemFound catalogHas it = true) :
    vcHandler "POST" (some items) catalogHas = ⟨500, vcInternalErrorBody⟩ ∧
    strContains vcInternalErrorBody "Internal server error" = true := by
  have herr := vcProcessItems_error_of_found catalogHas items hfound
  exact ⟨by simp [vcHandler, herr], by decide⟩

/-- C10 witness: a one-item cart whose product is in the catalog. -/
theorem C10_found_product_500_witness :
    (∃ it ∈ [VCRawItem.mk (some "p1") none none],
      vcItemFound (fun pid => pid == "p1") it = true) ∧
    (vcHandler "POST" (some [VCRawItem.mk (some "p1") none none]) (fun pid => pid == "p1") =
        ⟨500, vcInternalErrorBody⟩ ∧
      strContains vcInternalErrorBody "Internal server error" = true) :=
  ⟨by decide,
    C10_found_product_500 (fun pid => pid == "p1") [VCRawItem.mk (some "p1") none none]
      (by decide)⟩

end Umzila
